import Mathlib

set_option maxRecDepth 1000000

/-!
Verification development for the Spatial-Understanding-ETL pipeline
(`src/real_demo.py`).  The Python source is shallowly embedded: pixel
coordinates and image dimensions become exact rationals, Python's
`round(val, 3)` becomes round-half-to-even on thousandths, the polymorphic
`normalize_coords` function becomes a total Lean function whose `Except`
result distinguishes a raised exception (`.error`) from an ordinary return
value (`.ok`), with Python's `None` return modelled as `.ok none`.
-/

/-- Floor of a rational, computed directly on the numerator and denominator
so that the kernel can evaluate it (Euclidean division by a positive
denominator is floor division). -/
def ratFloor (q : ℚ) : ℤ := q.num / (q.den : ℤ)

/-- Round-half-to-even of a rational to the nearest integer, mirroring the
behaviour of Python's builtin `round` on the exact value.  The branch
conditions compare `2 * (q - floor q)` with `1` after clearing the
denominator, so everything is integer arithmetic. -/
def roundHalfEven (q : ℚ) : ℤ :=
  if 2 * (q.num - ratFloor q * (q.den : ℤ)) < (q.den : ℤ) then ratFloor q
  else if (q.den : ℤ) < 2 * (q.num - ratFloor q * (q.den : ℤ)) then ratFloor q + 1
  else if ratFloor q % 2 = 0 then ratFloor q else ratFloor q + 1

/-- Embedding of Python's `round(q, 3)`: round to the nearest multiple of
`1/1000`, ties going to even. -/
def round3 (q : ℚ) : ℚ := (roundHalfEven (q * 1000) : ℚ) / 1000

/-- Argument shape passed to `normalize_coords`: either a flat list of
numbers (`bbox` and `point` payloads) or a list of `[x, y]` pairs
(`trajectory` payloads). -/
inductive NormArg where
  | nums : List ℚ → NormArg
  | pairs : List (ℚ × ℚ) → NormArg
deriving DecidableEq

/-- Result value produced by `normalize_coords`: a flat list of normalized
scalars, or a list of normalized `[x, y]` pairs. -/
inductive NormVal where
  | nums : List ℚ → NormVal
  | pairs : List (ℚ × ℚ) → NormVal
deriving DecidableEq

/-- Embedding of `normalize_coords(coords, w, h, type)` from
`src/real_demo.py` lines 61-69.  `.error` marks a raised Python exception
(bad destructuring / indexing), `.ok none` is the fall-through path for an
unrecognized `type`, which in Python returns `None` silently. -/
def normalize_coords (coords : NormArg) (w h : ℚ) (type : String) :
    Except String (Option NormVal) :=
  if type = "bbox" then
    match coords with
    | .nums [x, y, bw, bh] =>
        .ok (some (.nums [round3 (x / w), round3 (y / h),
          round3 ((x + bw) / w), round3 ((y + bh) / h)]))
    | _ => .error "ValueError: cannot unpack bbox"
  else if type = "point" then
    match coords with
    | .nums (a :: b :: _) =>
        .ok (some (.nums [round3 (a / w), round3 (b / h)]))
    | _ => .error "TypeError: bad point payload"
  else if type = "trajectory" then
    match coords with
    | .pairs ps =>
        .ok (some (.pairs (ps.map (fun p => (round3 (p.1 / w), round3 (p.2 / h))))))
    | _ => .error "TypeError: bad trajectory payload"
  else .ok none

/-- All scalar coordinate values occurring in a normalized value. -/
def scalars : NormVal → List ℚ
  | .nums l => l
  | .pairs l => l.flatMap (fun p => [p.1, p.2])

/-- Zero-pad a natural number to two digits. -/
def padLeft2 (n : ℕ) : String := if n < 10 then "0" ++ toString n else toString n

/-- Zero-pad a natural number to three digits. -/
def padLeft3 (n : ℕ) : String := if n < 100 then "0" ++ padLeft2 n else toString n

/-- Decimal digits of a fractional part measured in thousandths, with
trailing zeros stripped (at least one digit remains), as Python's shortest
float repr prints exact multiples of `1/1000`. -/
def fracPart3 (fp : ℕ) : String :=
  if fp = 0 then "0"
  else if fp % 100 = 0 then toString (fp / 100)
  else if fp % 10 = 0 then padLeft2 (fp / 10)
  else padLeft3 fp

/-- Rendering of a `round(_, 3)` result the way Python's `str` prints the
float: integer part, a dot, then the fractional digits. -/
def reprFloat3 (q : ℚ) : String :=
  (if roundHalfEven (q * 1000) < 0 then "-" else "") ++
    toString ((roundHalfEven (q * 1000)).natAbs / 1000) ++ "." ++
    fracPart3 ((roundHalfEven (q * 1000)).natAbs % 1000)

/-- Python `str` of a list of floats, e.g. `[0.25, 0.75]`. -/
def reprNumList (l : List ℚ) : String :=
  "[" ++ String.intercalate ", " (l.map reprFloat3) ++ "]"

/-- Python `str` of a list of `[x, y]` float pairs. -/
def reprPairList (l : List (ℚ × ℚ)) : String :=
  "[" ++ String.intercalate ", "
    (l.map (fun p => "[" ++ reprFloat3 p.1 ++ ", " ++ reprFloat3 p.2 ++ "]")) ++ "]"

/-- Python `str` of a normalized value. -/
def reprNormVal : NormVal → String
  | .nums l => reprNumList l
  | .pairs l => reprPairList l

/-- Python `str` of a possibly-`None` normalized value as interpolated into
the f-strings of the driver. -/
def reprOptVal : Option NormVal → String
  | none => "None"
  | some v => reprNormVal v

/-- Task payload of a raw sample (`data` field), polymorphic over the task
type exactly as in `REAL_SAMPLES`. -/
inductive Payload where
  | bbox : ℚ → ℚ → ℚ → ℚ → Payload
  | points : List (ℚ × ℚ) → Payload
  | point : ℚ → ℚ → Payload
deriving DecidableEq

/-- Raw input sample, mirroring the dictionaries of `REAL_SAMPLES`. -/
structure RawSample where
  id : String
  url : String
  task_type : String
  label : String
  data : Payload
  instruction : String
deriving DecidableEq

/-- The `media` sub-dictionary of a unified record. -/
structure Media where
  image_size : List ℚ
  url : String
deriving DecidableEq

/-- One spatial annotation of a unified record. -/
structure Ann where
  type : String
  value : Option NormVal
  label : String
deriving DecidableEq

/-- One conversation turn; the Python key `from` is spelled `from_`. -/
structure Conv where
  from_ : String
  value : String
deriving DecidableEq

/-- A unified record (`entry` in `run_multimodal_pipeline`). -/
structure Entry where
  id : String
  source : String
  task_type : String
  media : Media
  spatial_annotations : List Ann
  conversations : List Conv
deriving DecidableEq

/-- JSON string literal (sample strings contain nothing to escape). -/
def jstr (s : String) : String := "\"" ++ s ++ "\""

/-- JSON rendering of a possibly-`None` normalized value. -/
def jval : Option NormVal → String
  | none => "null"
  | some (.nums l) => "[" ++ String.intercalate ", " (l.map reprFloat3) ++ "]"
  | some (.pairs l) =>
      "[" ++ String.intercalate ", "
        (l.map (fun p => "[" ++ reprFloat3 p.1 ++ ", " ++ reprFloat3 p.2 ++ "]")) ++ "]"

/-- JSON list from already-rendered elements. -/
def jlist (l : List String) : String := "[" ++ String.intercalate ", " l ++ "]"

/-- JSON rendering of one spatial annotation. -/
def jann (a : Ann) : String :=
  "\x7b\"type\": " ++ jstr a.type ++ ", \"value\": " ++ jval a.value ++
    ", \"label\": " ++ jstr a.label ++ "\x7d"

/-- JSON rendering of one conversation turn. -/
def jconv (c : Conv) : String :=
  "\x7b\"from\": " ++ jstr c.from_ ++ ", \"value\": " ++ jstr c.value ++ "\x7d"

/-- Embedding of `json.dumps(entry)`: one output line of the JSONL file. -/
def encodeRecord (e : Entry) : String :=
  "\x7b\"id\": " ++ jstr e.id ++ ", \"source\": " ++ jstr e.source ++
    ", \"task_type\": " ++ jstr e.task_type ++
    ", \"media\": \x7b\"image_size\": " ++
    jlist (e.media.image_size.map (fun q => toString q.num)) ++
    ", \"url\": " ++ jstr e.media.url ++ "\x7d" ++
    ", \"spatial_annotations\": " ++ jlist (e.spatial_annotations.map jann) ++
    ", \"conversations\": " ++ jlist (e.conversations.map jconv) ++ "\x7d"

/-- Visualization output filename derived from the sample's task type
(`visualize_task` call in the driver, line 124). -/
def vizFile (s : RawSample) : String := "verify_" ++ s.task_type ++ ".png"

/-- The task-type dispatch of `run_multimodal_pipeline` lines 94-113: on a
matching branch it produces the single spatial annotation and the
synthesized `gpt_resp` string; on an unrecognized task type no branch runs
(`.ok none`), and a task type whose payload lacks the required key would
raise a `KeyError` (`.error`). -/
def buildAnnGpt (s : RawSample) (w h : ℚ) : Except String (Option (Ann × String)) :=
  if s.task_type = "detection" then
    match s.data with
    | .bbox x y bw bh =>
        match normalize_coords (.nums [x, y, bw, bh]) w h "bbox" with
        | .ok v => .ok (some (⟨"bbox", v, s.label⟩,
            "Found at <box>" ++ reprOptVal v ++ "</box>."))
        | .error e => .error e
    | _ => .error "KeyError: bbox"
  else if s.task_type = "trajectory" then
    match s.data with
    | .points ps =>
        match normalize_coords (.pairs ps) w h "trajectory" with
        | .ok v => .ok (some (⟨"trajectory", v, s.label⟩,
            "Trajectory path: <traj>" ++ reprOptVal v ++ "</traj>."))
        | .error e => .error e
    | _ => .error "KeyError: points"
  else if s.task_type = "affordance" then
    match s.data with
    | .point x y =>
        match normalize_coords (.nums [x, y]) w h "point" with
        | .ok v => .ok (some (⟨"point", v, s.label⟩,
            "Interact at point: <point>" ++ reprOptVal v ++ "</point>."))
        | .error e => .error e
    | _ => .error "KeyError: point"
  else .ok none

/-- Assembled unified record for a processed sample: the fixed schema of
lines 82-89 and 116-119 with the given annotations and gpt response. -/
def mkEntryG (s : RawSample) (w h : ℚ) (anns : List Ann) (g : String) : Entry :=
  { id := s.id, source := "coco_simulated", task_type := s.task_type,
    media := { image_size := [w, h], url := s.url },
    spatial_annotations := anns,
    conversations := [{ from_ := "human", value := s.instruction },
                      { from_ := "gpt", value := g }] }

/-- The unified record built for a sample on the normal (matched-branch)
path. -/
def mkEntry (s : RawSample) (w h : ℚ) : Entry :=
  match buildAnnGpt s w h with
  | .ok (some (a, g)) => mkEntryG s w h [a] g
  | _ => mkEntryG s w h [] ""

/-- One iteration of the driver loop (lines 76-124).  The state is the
accumulated `unified_data`, the current value of the Python local
`gpt_resp` (which persists across iterations and is `none` before its
first assignment), and the visualization calls made so far.  Referencing
`gpt_resp` before any assignment raises `NameError` and aborts the run. -/
def step (fetch : String → Option (ℚ × ℚ))
    (st : List Entry × Option String × List String) (s : RawSample) :
    Except String (List Entry × Option String × List String) :=
  match fetch s.url with
  | none => .ok st
  | some (w, h) =>
    match buildAnnGpt s w h with
    | .error e => .error e
    | .ok (some (a, g0)) =>
        .ok (st.1 ++ [mkEntryG s w h [a] g0], some g0, st.2.2 ++ [vizFile s])
    | .ok none =>
        match st.2.1 with
        | none => .error "NameError: gpt_resp is not defined"
        | some g0 =>
            .ok (st.1 ++ [mkEntryG s w h [] g0], some g0, st.2.2 ++ [vizFile s])

/-- Driver loop over the remaining samples. -/
def go (fetch : String → Option (ℚ × ℚ)) :
    List RawSample → (List Entry × Option String × List String) →
    Except String (List Entry × Option String × List String)
  | [], st => .ok st
  | s :: rest, st =>
    match step fetch st s with
    | .error e => .error e
    | .ok st2 => go fetch rest st2

/-- Embedding of `run_multimodal_pipeline` over an explicit sample list and
an ImageSource oracle giving each URL's decoded dimensions (or `none` on
fetch failure).  Returns the accumulated unified records and the
visualization files written, or the uncaught exception aborting the run. -/
def run (samples : List RawSample) (fetch : String → Option (ℚ × ℚ)) :
    Except String (List Entry × List String) :=
  (go fetch samples ([], none, [])).map (fun st => (st.1, st.2.2))

/-- Lines of the output JSONL file (one `json.dumps` per record, in
append order). -/
def outputLines (samples : List RawSample) (fetch : String → Option (ℚ × ℚ)) :
    Except String (List String) :=
  (run samples fetch).map (fun r => r.1.map encodeRecord)

/-- The record the pipeline builds for a sample, given the fetch oracle. -/
def entryFor (fetch : String → Option (ℚ × ℚ)) (s : RawSample) : Entry :=
  match fetch s.url with
  | some (w, h) => mkEntry s w h
  | none => mkEntry s 0 0

/-- Well-formed sample: task type in the closed set with the matching
payload shape, as the data model of the spec requires. -/
def WF (s : RawSample) : Prop :=
  (s.task_type = "detection" ∧ ∃ x y bw bh, s.data = .bbox x y bw bh) ∨
  (s.task_type = "trajectory" ∧ ∃ ps, s.data = .points ps) ∨
  (s.task_type = "affordance" ∧ ∃ x y, s.data = .point x y)

/-- Normalized geometric kind of a task type. -/
def normKind (t : String) : String :=
  if t = "detection" then "bbox"
  else if t = "trajectory" then "trajectory"
  else if t = "affordance" then "point"
  else ""

/-- The type-specific response template of the driver. -/
def gptTemplate (t : String) (v : String) : String :=
  if t = "detection" then "Found at <box>" ++ v ++ "</box>."
  else if t = "trajectory" then "Trajectory path: <traj>" ++ v ++ "</traj>."
  else "Interact at point: <point>" ++ v ++ "</point>."

/-- First element of `REAL_SAMPLES` (detection). -/
def catSample : RawSample :=
  { id := "task_bbox_cat",
    url := "http://images.cocodataset.org/val2017/000000039769.jpg",
    task_type := "detection", label := "cat",
    data := .bbox 14 3 310 477,
    instruction := "Detect the cat." }

/-- Second element of `REAL_SAMPLES` (trajectory). -/
def skierSample : RawSample :=
  { id := "task_traj_skier",
    url := "http://images.cocodataset.org/val2017/000000000785.jpg",
    task_type := "trajectory", label := "skier_path",
    data := .points [(250, 20), (260, 100), (280, 200), (300, 300), (220, 350)],
    instruction := "Predict the future trajectory of the skier." }

/-- Third element of `REAL_SAMPLES` (affordance). -/
def signSample : RawSample :=
  { id := "task_affordance_sign",
    url := "http://images.cocodataset.org/val2017/000000000724.jpg",
    task_type := "affordance", label := "stop_sign_center",
    data := .point 343 202,
    instruction := "Where is the center of the stop sign for interaction?" }

/-- The embedded sample list of the script. -/
def REAL_SAMPLES : List RawSample := [catSample, skierSample, signSample]

/-- A sample whose task type is outside the closed set. -/
def badSample : RawSample :=
  { id := "task_seg_dog", url := "http://example.com/dog.jpg",
    task_type := "segmentation", label := "dog",
    data := .point 1 1,
    instruction := "Segment the dog." }

/-- Oracle: every fetch succeeds with a 100 by 100 image. -/
def fetch100 : String → Option (ℚ × ℚ) := fun _ => some (100, 100)

/-- Oracle: every fetch succeeds with a 640 by 480 image. -/
def fetch640 : String → Option (ℚ × ℚ) := fun _ => some (640, 480)

/-- Oracle: the skier image fails to fetch, all others decode to 640 by
425. -/
def fetchSkipSkier : String → Option (ℚ × ℚ) := fun u =>
  if u = "http://images.cocodataset.org/val2017/000000000785.jpg" then none
  else some (640, 425)

lemma ratFloor_eq (q : ℚ) : ratFloor q = ⌊q⌋ := by
  rw [Rat.floor_def, ratFloor]

lemma roundHalfEven_nonneg {q : ℚ} (h : 0 ≤ q) : 0 ≤ roundHalfEven q := by
  unfold roundHalfEven
  rw [ratFloor_eq]
  have hf : (0 : ℤ) ≤ ⌊q⌋ := Int.floor_nonneg.mpr h
  split_ifs <;> omega

lemma sub_floor_eq_div (q : ℚ) :
    q - (⌊q⌋ : ℚ) = ((q.num - ⌊q⌋ * (q.den : ℤ) : ℤ) : ℚ) / (q.den : ℚ) := by
  have hden : (0 : ℚ) < (q.den : ℚ) := by exact_mod_cast q.den_pos
  have h0 : (q.num : ℚ) / (q.den : ℚ) = q := Rat.num_div_den q
  have h1 : q * (q.den : ℚ) = (q.num : ℚ) := by
    have h2 := congrArg (fun z : ℚ => z * (q.den : ℚ)) h0
    simp only at h2
    rw [← h2]
    exact div_mul_cancel₀ _ hden.ne'
  rw [eq_div_iff hden.ne', sub_mul, h1]
  push_cast
  ring

lemma roundHalfEven_le {q : ℚ} {n : ℤ} (h : q ≤ (n : ℚ)) : roundHalfEven q ≤ n := by
  unfold roundHalfEven
  rw [ratFloor_eq]
  have hf : ⌊q⌋ ≤ n := by
    have h2 := Int.floor_le_floor h
    simpa using h2
  have hdenz : (0 : ℤ) < (q.den : ℤ) := by exact_mod_cast q.den_pos
  have hkey : ∀ ht : (q.den : ℤ) ≤ 2 * (q.num - ⌊q⌋ * (q.den : ℤ)), ⌊q⌋ + 1 ≤ n := by
    intro ht
    have hpos : 0 < q.num - ⌊q⌋ * (q.den : ℤ) := by omega
    have hq : (0 : ℚ) < q - (⌊q⌋ : ℚ) := by
      rw [sub_floor_eq_div]
      apply div_pos _ (by exact_mod_cast q.den_pos)
      exact_mod_cast hpos
    have hlt : (⌊q⌋ : ℚ) < (n : ℚ) := by linarith
    have : ⌊q⌋ < n := by exact_mod_cast hlt
    omega
  split_ifs with h1 h2 h3
  · exact hf
  · exact hkey (by omega)
  · exact hf
  · exact hkey (by omega)

lemma round3_nonneg {q : ℚ} (h : 0 ≤ q) : 0 ≤ round3 q := by
  unfold round3
  have hk : (0 : ℤ) ≤ roundHalfEven (q * 1000) :=
    roundHalfEven_nonneg (by positivity)
  have hk2 : (0 : ℚ) ≤ (roundHalfEven (q * 1000) : ℚ) := by exact_mod_cast hk
  positivity

lemma round3_le_one {q : ℚ} (h : q ≤ 1) : round3 q ≤ 1 := by
  unfold round3
  have hk : roundHalfEven (q * 1000) ≤ (1000 : ℤ) :=
    roundHalfEven_le (by push_cast; linarith)
  rw [div_le_one (by norm_num)]
  exact_mod_cast hk

lemma round3_unit {x d : ℚ} (hd : 0 < d) (h0 : 0 ≤ x) (h1 : x ≤ d) :
    0 ≤ round3 (x / d) ∧ round3 (x / d) ≤ 1 :=
  ⟨round3_nonneg (div_nonneg h0 hd.le),
   round3_le_one ((div_le_one hd).mpr h1)⟩


/-- C1: for every bbox input `[x, y, w, h]` and positive dimensions,
`normalize_coords` with kind `bbox` returns the two-corner box with each
component rounded to three decimals; in particular the rounding-contract
instance `normalize([100,100,200,200], 400, 400, "bbox")` evaluates to
`[0.25, 0.25, 0.75, 0.75]`. -/
theorem C1_bbox_normalize :
    (∀ x y bw bh W H : ℚ, 0 < W → 0 < H →
      normalize_coords (.nums [x, y, bw, bh]) W H "bbox" =
        .ok (some (.nums [round3 (x / W), round3 (y / H),
          round3 ((x + bw) / W), round3 ((y + bh) / H)]))) ∧
    normalize_coords (.nums [100, 100, 200, 200]) 400 400 "bbox" =
      .ok (some (.nums [0.25, 0.25, 0.75, 0.75])) := by
  constructor
  · intro x y bw bh W H _ _
    rfl
  · with_unfolding_all rfl

/-- Witness for C1 at the cat bbox with a 640 by 480 image. -/
theorem C1_bbox_normalize_witness :
    normalize_coords (.nums [14, 3, 310, 477]) 640 480 "bbox" =
      .ok (some (.nums [round3 (14 / 640), round3 (3 / 480),
        round3 ((14 + 310) / 640), round3 ((3 + 477) / 480)])) :=
  C1_bbox_normalize.1 14 3 310 477 640 480 (by norm_num) (by norm_num)

/-- C2: whenever all pixel coordinates of the input lie between 0 and the
matching image dimension (for a bbox these are the corner coordinates
`x`, `y`, `x+w`, `y+h`), every scalar of the normalized output lies in
`[0, 1]` inclusive, for each of the three kinds. -/
theorem C2_normalized_in_unit :
    (∀ x y bw bh W H : ℚ, 0 < W → 0 < H →
      0 ≤ x → x ≤ W → 0 ≤ y → y ≤ H →
      0 ≤ x + bw → x + bw ≤ W → 0 ≤ y + bh → y + bh ≤ H →
      ∀ v, normalize_coords (.nums [x, y, bw, bh]) W H "bbox" = .ok (some v) →
        ∀ q ∈ scalars v, 0 ≤ q ∧ q ≤ 1) ∧
    (∀ x y W H : ℚ, 0 < W → 0 < H → 0 ≤ x → x ≤ W → 0 ≤ y → y ≤ H →
      ∀ v, normalize_coords (.nums [x, y]) W H "point" = .ok (some v) →
        ∀ q ∈ scalars v, 0 ≤ q ∧ q ≤ 1) ∧
    (∀ (ps : List (ℚ × ℚ)) (W H : ℚ), 0 < W → 0 < H →
      (∀ p ∈ ps, 0 ≤ p.1 ∧ p.1 ≤ W ∧ 0 ≤ p.2 ∧ p.2 ≤ H) →
      ∀ v, normalize_coords (.pairs ps) W H "trajectory" = .ok (some v) →
        ∀ q ∈ scalars v, 0 ≤ q ∧ q ≤ 1) := by
  refine ⟨?_, ?_, ?_⟩
  · intro x y bw bh W H hW hH hx hxW hy hyH hxb hxbW hyb hybH v hv q hq
    have hv2 : NormVal.nums [round3 (x / W), round3 (y / H),
        round3 ((x + bw) / W), round3 ((y + bh) / H)] = v := by
      simpa [normalize_coords] using hv
    subst hv2
    simp [scalars] at hq
    rcases hq with rfl | rfl | rfl | rfl
    · exact round3_unit hW hx hxW
    · exact round3_unit hH hy hyH
    · exact round3_unit hW hxb hxbW
    · exact round3_unit hH hyb hybH
  · intro x y W H hW hH hx hxW hy hyH v hv q hq
    have hv2 : NormVal.nums [round3 (x / W), round3 (y / H)] = v := by
      simpa [normalize_coords] using hv
    subst hv2
    simp [scalars] at hq
    rcases hq with rfl | rfl
    · exact round3_unit hW hx hxW
    · exact round3_unit hH hy hyH
  · intro ps W H hW hH hbnd v hv q hq
    have hv2 : NormVal.pairs (ps.map (fun p => (round3 (p.1 / W), round3 (p.2 / H)))) = v := by
      simpa [normalize_coords] using hv
    subst hv2
    simp only [scalars, List.mem_flatMap, List.mem_map] at hq
    rcases hq with ⟨pr, ⟨p, hp, rfl⟩, hqm⟩
    rcases hbnd p hp with ⟨h1, h2, h3, h4⟩
    simp at hqm
    rcases hqm with rfl | rfl
    · exact round3_unit hW h1 h2
    · exact round3_unit hH h3 h4

/-- Witness for C2 at the stop-sign point in a 640 by 480 image. -/
theorem C2_normalized_in_unit_witness :
    0 ≤ (0.536 : ℚ) ∧ (0.536 : ℚ) ≤ 1 :=
  C2_normalized_in_unit.2.1 343 202 640 480 (by norm_num) (by norm_num)
    (by norm_num) (by norm_num) (by norm_num) (by norm_num)
    (.nums [0.536, 0.421]) (by with_unfolding_all rfl)
    0.536 (by with_unfolding_all decide)

/-- C3: trajectory normalization maps an input sequence of pairs to the
same-length sequence, in order, with the i-th output pair the rounded
coordinate-wise division of the i-th input pair. -/
theorem C3_trajectory_shape :
    ∀ (ps : List (ℚ × ℚ)) (W H : ℚ), 0 < W → 0 < H →
      normalize_coords (.pairs ps) W H "trajectory" =
        .ok (some (.pairs (ps.map (fun p => (round3 (p.1 / W), round3 (p.2 / H)))))) ∧
      (ps.map (fun p => (round3 (p.1 / W), round3 (p.2 / H)))).length = ps.length := by
  intro ps W H _ _
  exact ⟨rfl, by simp⟩

/-- Witness for C3 on a two-point trajectory. -/
theorem C3_trajectory_shape_witness :
    normalize_coords (.pairs [(250, 20), (260, 100)]) 640 480 "trajectory" =
      .ok (some (.pairs ([((250 : ℚ), (20 : ℚ)), (260, 100)].map
        (fun p => (round3 (p.1 / 640), round3 (p.2 / 480)))))) ∧
    ([((250 : ℚ), (20 : ℚ)), (260, 100)].map
      (fun p => (round3 (p.1 / 640), round3 (p.2 / 480)))).length =
      [((250 : ℚ), (20 : ℚ)), (260, 100)].length :=
  C3_trajectory_shape [(250, 20), (260, 100)] 640 480 (by norm_num) (by norm_num)

/-- C4: the point kind returns the rounded coordinate-wise division, and
`normalize([343,202], 640, 480, "point")` evaluates to `[0.536, 0.421]`. -/
theorem C4_point_normalize :
    (∀ x y W H : ℚ, 0 < W → 0 < H →
      normalize_coords (.nums [x, y]) W H "point" =
        .ok (some (.nums [round3 (x / W), round3 (y / H)]))) ∧
    normalize_coords (.nums [343, 202]) 640 480 "point" =
      .ok (some (.nums [0.536, 0.421])) := by
  constructor
  · intro x y W H _ _
    rfl
  · with_unfolding_all rfl

/-- Witness for C4 at a concrete point. -/
theorem C4_point_normalize_witness :
    normalize_coords (.nums [100, 50]) 200 200 "point" =
      .ok (some (.nums [round3 (100 / 200), round3 (50 / 200)])) :=
  C4_point_normalize.1 100 50 200 200 (by norm_num) (by norm_num)

/-- C6 counterexample: at the concrete unknown kind `"oval"` the function
returns Python `None` (`.ok none`), it does not fail with an
InvalidTaskKind error. -/
theorem C6_cex :
    normalize_coords (.nums [0, 0]) 1 1 "oval" = .ok none ∧
    normalize_coords (.nums [0, 0]) 1 1 "oval" ≠ .error "InvalidTaskKind" := by
  constructor
  · rfl
  · intro h
    rw [show normalize_coords (.nums [0, 0]) 1 1 "oval" = .ok none from rfl] at h
    exact Except.noConfusion h

/-- C6 amended: for every kind outside the three recognized ones,
`normalize_coords` silently produces no result (returns `None`); it raises
no error. -/
theorem C6_unknown_kind_silent :
    ∀ (coords : NormArg) (w h : ℚ) (k : String),
      k ≠ "bbox" → k ≠ "point" → k ≠ "trajectory" →
      normalize_coords coords w h k = .ok none := by
  intro coords w h k h1 h2 h3
  simp [normalize_coords, h1, h2, h3]

/-- Witness for the amended C6 at the kind `"oval"`. -/
theorem C6_unknown_kind_silent_witness :
    normalize_coords (.pairs []) 2 2 "oval" = .ok none :=
  C6_unknown_kind_silent (.pairs []) 2 2 "oval" (by decide) (by decide) (by decide)

/-- C10: trajectory normalization of the empty sequence returns the empty
sequence without failing. -/
theorem C10_empty_trajectory :
    ∀ W H : ℚ, 0 < W → 0 < H →
      normalize_coords (.pairs []) W H "trajectory" = .ok (some (.pairs [])) :=
  fun _ _ _ _ => rfl

/-- Witness for C10 at dimensions 1 by 1. -/
theorem C10_empty_trajectory_witness :
    normalize_coords (.pairs []) 1 1 "trajectory" = .ok (some (.pairs [])) :=
  C10_empty_trajectory 1 1 one_pos one_pos

lemma step_none {fetch : String → Option (ℚ × ℚ)} {s : RawSample}
    (h : fetch s.url = none) (st : List Entry × Option String × List String) :
    step fetch st s = .ok st := by
  simp [step, h]

lemma step_wf {fetch : String → Option (ℚ × ℚ)} {s : RawSample} {w h : ℚ}
    (hWF : WF s) (hf : fetch s.url = some (w, h))
    (st : List Entry × Option String × List String) :
    ∃ g0 : String,
      step fetch st s = .ok (st.1 ++ [mkEntry s w h], some g0, st.2.2 ++ [vizFile s]) := by
  rcases hWF with ⟨ht, x, y, bw, bh, hd⟩ | ⟨ht, ps, hd⟩ | ⟨ht, x, y, hd⟩
  · exact ⟨"Found at <box>" ++ reprOptVal (some (.nums [round3 (x / w), round3 (y / h),
      round3 ((x + bw) / w), round3 ((y + bh) / h)])) ++ "</box>.",
      by simp [step, hf, buildAnnGpt, ht, hd, normalize_coords, mkEntry]⟩
  · exact ⟨"Trajectory path: <traj>" ++ reprOptVal (some (.pairs (ps.map
      (fun p => (round3 (p.1 / w), round3 (p.2 / h)))))) ++ "</traj>.",
      by simp [step, hf, buildAnnGpt, ht, hd, normalize_coords, mkEntry]⟩
  · exact ⟨"Interact at point: <point>" ++ reprOptVal (some (.nums [round3 (x / w),
      round3 (y / h)])) ++ "</point>.",
      by simp [step, hf, buildAnnGpt, ht, hd, normalize_coords, mkEntry]⟩

lemma go_skip {fetch : String → Option (ℚ × ℚ)} {s : RawSample}
    (h : fetch s.url = none) :
    ∀ (pre post : List RawSample) (st : List Entry × Option String × List String),
      go fetch (pre ++ s :: post) st = go fetch (pre ++ post) st := by
  intro pre
  induction pre with
  | nil =>
    intro post st
    simp [go, step_none h]
  | cons p pre ih =>
    intro post st
    simp only [List.cons_append, go]
    cases hs : step fetch st p with
    | error e => rfl
    | ok st2 => exact ih post st2

lemma step_mem {fetch : String → Option (ℚ × ℚ)}
    {st st2 : List Entry × Option String × List String} {s : RawSample}
    (h : step fetch st s = .ok st2) :
    ∀ e ∈ st2.1, e ∈ st.1 ∨ e.id = s.id := by
  intro e he
  unfold step at h
  split at h
  · injection h with h1
    subst h1
    exact Or.inl he
  · split at h
    · exact absurd h (by simp)
    · injection h with h1
      subst h1
      simp only [List.mem_append, List.mem_singleton] at he
      rcases he with he | rfl
      · exact Or.inl he
      · exact Or.inr rfl
    · split at h
      · exact absurd h (by simp)
      · injection h with h1
        subst h1
        simp only [List.mem_append, List.mem_singleton] at he
        rcases he with he | rfl
        · exact Or.inl he
        · exact Or.inr rfl

lemma go_ids {fetch : String → Option (ℚ × ℚ)} :
    ∀ (samples : List RawSample) (st : List Entry × Option String × List String)
      (es : List Entry) (g : Option String) (vz : List String),
      go fetch samples st = .ok (es, g, vz) →
      ∀ e ∈ es, e ∈ st.1 ∨ ∃ t ∈ samples, e.id = t.id := by
  intro samples
  induction samples with
  | nil =>
    intro st es g vz hgo e he
    simp only [go] at hgo
    injection hgo with h1
    rw [h1]
    exact Or.inl he
  | cons s rest ih =>
    intro st es g vz hgo e he
    simp only [go] at hgo
    cases hs : step fetch st s with
    | error er =>
      rw [hs] at hgo
      exact absurd hgo (by simp)
    | ok st2 =>
      rw [hs] at hgo
      rcases ih st2 es g vz hgo e he with hin | ⟨t, ht, hid⟩
      · rcases step_mem hs e hin with hin2 | hid2
        · exact Or.inl hin2
        · exact Or.inr ⟨s, by simp, hid2⟩
      · exact Or.inr ⟨t, by simp [ht], hid⟩

lemma go_wf {fetch : String → Option (ℚ × ℚ)} :
    ∀ (samples : List RawSample), (∀ s ∈ samples, WF s) →
      ∀ st : List Entry × Option String × List String, ∃ g2 : Option String,
        go fetch samples st =
          .ok (st.1 ++ (samples.filter (fun s => (fetch s.url).isSome)).map (entryFor fetch),
               g2,
               st.2.2 ++ (samples.filter (fun s => (fetch s.url).isSome)).map vizFile) := by
  intro samples
  induction samples with
  | nil =>
    intro _ st
    exact ⟨st.2.1, by simp [go]⟩
  | cons s rest ih =>
    intro hwf st
    have hwfs : WF s := hwf s (by simp)
    have hwfr : ∀ t ∈ rest, WF t := fun t ht => hwf t (by simp [ht])
    cases hf : fetch s.url with
    | none =>
      obtain ⟨g2, hg⟩ := ih hwfr st
      refine ⟨g2, ?_⟩
      simp only [go, step_none hf]
      rw [hg]
      simp [List.filter_cons, hf]
    | some wh =>
      obtain ⟨w0, h0⟩ := wh
      obtain ⟨g0, hstep⟩ := step_wf hwfs hf st
      obtain ⟨g2, hg⟩ := ih hwfr
        (st.1 ++ [mkEntry s w0 h0], some g0, st.2.2 ++ [vizFile s])
      refine ⟨g2, ?_⟩
      simp only [go]
      rw [hstep]
      show go fetch rest (st.1 ++ [mkEntry s w0 h0], some g0, st.2.2 ++ [vizFile s]) = _
      rw [hg]
      simp [List.filter_cons, hf, entryFor]

lemma mkEntry_props {s : RawSample} (hWF : WF s) (w h : ℚ) :
    ∃ v : NormVal,
      mkEntry s w h = mkEntryG s w h [⟨normKind s.task_type, some v, s.label⟩]
        (gptTemplate s.task_type (reprNormVal v)) := by
  rcases hWF with ⟨ht, x, y, bw, bh, hd⟩ | ⟨ht, ps, hd⟩ | ⟨ht, x, y, hd⟩
  · refine ⟨.nums [round3 (x / w), round3 (y / h),
      round3 ((x + bw) / w), round3 ((y + bh) / h)], ?_⟩
    simp [mkEntry, buildAnnGpt, ht, hd, normalize_coords, normKind, gptTemplate, reprOptVal]
  · refine ⟨.pairs (ps.map (fun p => (round3 (p.1 / w), round3 (p.2 / h)))), ?_⟩
    simp [mkEntry, buildAnnGpt, ht, hd, normalize_coords, normKind, gptTemplate, reprOptVal]
  · refine ⟨.nums [round3 (x / w), round3 (y / h)], ?_⟩
    simp [mkEntry, buildAnnGpt, ht, hd, normalize_coords, normKind, gptTemplate, reprOptVal]

/-- C5 counterexample: with every fetch succeeding at 100 by 100, running
the pipeline on the cat sample followed by a sample of task type
`"segmentation"` (outside the closed set) emits TWO records, the second
carrying the unrecognized sample's id — the sample is not skipped. -/
theorem C5_cex :
    (run [catSample, badSample] fetch100).map (fun r => r.1.map Entry.id) =
      .ok ["task_bbox_cat", "task_seg_dog"] := by
  with_unfolding_all rfl

/-- C5 amended: the driver has no UnrecognizedTaskType handling.  For a
sample with task type outside the closed set whose fetch succeeds: if no
earlier matched sample has set `gpt_resp`, the whole run aborts with an
uncaught NameError (no output is written); otherwise the sample is not
skipped — a record with its id is still appended, with empty
spatial_annotations and the stale `gpt_resp` of the previous matched
sample. -/
theorem C5_unknown_task :
    ∀ (s : RawSample) (fetch : String → Option (ℚ × ℚ)) (w h : ℚ),
      s.task_type ≠ "detection" → s.task_type ≠ "trajectory" →
      s.task_type ≠ "affordance" → fetch s.url = some (w, h) →
      run [s] fetch = .error "NameError: gpt_resp is not defined" ∧
      (∀ (es : List Entry) (g0 : String) (vz : List String),
        go fetch [s] (es, some g0, vz) =
          .ok (es ++ [mkEntryG s w h [] g0], some g0, vz ++ [vizFile s])) := by
  intro s fetch w h h1 h2 h3 hf
  have hb : buildAnnGpt s w h = .ok none := by
    simp [buildAnnGpt, h1, h2, h3]
  constructor
  · simp [run, go, step, hf, hb, Except.map]
  · intro es g0 vz
    simp [go, step, hf, hb]

/-- Witness for the amended C5: the segmentation sample alone crashes the
run with the NameError. -/
theorem C5_unknown_task_witness :
    run [badSample] fetch100 = .error "NameError: gpt_resp is not defined" :=
  (C5_unknown_task badSample fetch100 100 100 (by decide) (by decide) (by decide) rfl).1

/-- C7: a sample whose fetch fails is skipped entirely: the run behaves
exactly as if the sample were absent (same records, same visualizations),
and — when the remaining ids differ from the failed sample's id — no
emitted record carries its id; the run still terminates with the records
of the other samples. -/
theorem C7_skip_on_fetch_failure :
    ∀ (pre post : List RawSample) (s : RawSample) (fetch : String → Option (ℚ × ℚ)),
      fetch s.url = none →
      run (pre ++ s :: post) fetch = run (pre ++ post) fetch ∧
      (∀ (es : List Entry) (vz : List String),
        run (pre ++ s :: post) fetch = .ok (es, vz) →
        (∀ t ∈ pre ++ post, t.id ≠ s.id) → ∀ e ∈ es, e.id ≠ s.id) := by
  intro pre post s fetch hf
  have hrun : run (pre ++ s :: post) fetch = run (pre ++ post) fetch := by
    unfold run
    rw [go_skip hf]
  refine ⟨hrun, ?_⟩
  intro es vz hok hids e he
  rw [hrun] at hok
  unfold run at hok
  cases hgo : go fetch (pre ++ post) ([], none, []) with
  | error er =>
    rw [hgo] at hok
    exact absurd hok (by simp [Except.map])
  | ok st =>
    rw [hgo] at hok
    simp [Except.map] at hok
    obtain ⟨h1, h2⟩ := hok
    have hm : e ∈ st.1 := by rw [h1]; exact he
    rcases go_ids (pre ++ post) ([], none, []) st.1 st.2.1 st.2.2 (by rw [hgo]) e hm with
      hin | ⟨t, ht, hid⟩
    · simp at hin
    · rw [hid]
      exact hids t ht

/-- Witness for C7: with the skier fetch failing, the three-sample run
equals the run on the other two samples alone. -/
theorem C7_skip_on_fetch_failure_witness :
    run [catSample, skierSample, signSample] fetchSkipSkier =
      run [catSample, signSample] fetchSkipSkier :=
  (C7_skip_on_fetch_failure [catSample] [signSample] skierSample fetchSkipSkier rfl).1

/-- C8: for well-formed samples the pipeline terminates with exactly one
JSON-encoded record line per fetch-successful sample, in input order
restricted to those successes. -/
theorem C8_output_line_order :
    ∀ (samples : List RawSample) (fetch : String → Option (ℚ × ℚ)),
      (∀ s ∈ samples, WF s) →
      outputLines samples fetch =
        .ok ((samples.filter (fun s => (fetch s.url).isSome)).map
          (fun s => encodeRecord (entryFor fetch s))) := by
  intro samples fetch hwf
  obtain ⟨g2, hg⟩ := go_wf samples hwf ([], none, [])
  unfold outputLines run
  rw [hg]
  simp [Except.map, List.map_map, Function.comp]

/-- Witness for C8: cat and sign samples, every fetch succeeding. -/
theorem C8_output_line_order_witness :
    outputLines [catSample, signSample] fetch640 =
      .ok (([catSample, signSample].filter (fun s => (fetch640 s.url).isSome)).map
        (fun s => encodeRecord (entryFor fetch640 s))) :=
  C8_output_line_order [catSample, signSample] fetch640 (by
    intro s hs
    simp only [List.mem_cons, List.not_mem_nil, or_false] at hs
    rcases hs with rfl | rfl
    · exact Or.inl ⟨rfl, 14, 3, 310, 477, rfl⟩
    · exact Or.inr (Or.inr ⟨rfl, 343, 202, rfl⟩))

/-- C9: every record emitted by a run over well-formed samples comes from a
fetch-successful sample and has exactly one spatial annotation, whose type
is the normalized kind of the sample's task type, and exactly two
conversation turns, `human` carrying the instruction then `gpt` carrying
the templated response that embeds the rendered normalized value inside
the type-specific marker. -/
theorem C9_record_shape :
    ∀ (samples : List RawSample) (fetch : String → Option (ℚ × ℚ))
      (es : List Entry) (vz : List String),
      (∀ s ∈ samples, WF s) →
      run samples fetch = .ok (es, vz) →
      ∀ e ∈ es, ∃ (s : RawSample) (w h : ℚ) (v : NormVal),
        s ∈ samples ∧ fetch s.url = some (w, h) ∧
        e.id = s.id ∧ e.task_type = s.task_type ∧
        e.spatial_annotations = [⟨normKind s.task_type, some v, s.label⟩] ∧
        e.spatial_annotations.length = 1 ∧
        e.conversations = [⟨"human", s.instruction⟩,
          ⟨"gpt", gptTemplate s.task_type (reprNormVal v)⟩] ∧
        e.conversations.length = 2 ∧
        e.conversations.map Conv.from_ = ["human", "gpt"] := by
  intro samples fetch es vz hwf hrun e he
  obtain ⟨g2, hg⟩ := go_wf samples hwf ([], none, [])
  unfold run at hrun
  rw [hg] at hrun
  simp [Except.map] at hrun
  obtain ⟨h1, h2⟩ := hrun
  rw [← h1] at he
  rcases List.mem_map.mp he with ⟨s, hsmem, rfl⟩
  have hsIn : s ∈ samples := List.mem_of_mem_filter hsmem
  have hsok := List.of_mem_filter hsmem
  cases hff : fetch s.url with
  | none =>
    rw [hff] at hsok
    simp at hsok
  | some wh =>
    obtain ⟨w0, h0⟩ := wh
    obtain ⟨v, hv⟩ := mkEntry_props (hwf s hsIn) w0 h0
    have heq : entryFor fetch s = mkEntry s w0 h0 := by simp [entryFor, hff]
    refine ⟨s, w0, h0, v, hsIn, hff, ?_⟩
    rw [heq, hv]
    simp [mkEntryG]

/-- Witness for C9: the affordance sample in a 640 by 480 image. -/
theorem C9_record_shape_witness :
    ∃ (s : RawSample) (w h : ℚ) (v : NormVal),
      s ∈ [signSample] ∧ fetch640 s.url = some (w, h) ∧
      (entryFor fetch640 signSample).id = s.id ∧
      (entryFor fetch640 signSample).task_type = s.task_type ∧
      (entryFor fetch640 signSample).spatial_annotations =
        [⟨normKind s.task_type, some v, s.label⟩] ∧
      (entryFor fetch640 signSample).spatial_annotations.length = 1 ∧
      (entryFor fetch640 signSample).conversations = [⟨"human", s.instruction⟩,
        ⟨"gpt", gptTemplate s.task_type (reprNormVal v)⟩] ∧
      (entryFor fetch640 signSample).conversations.length = 2 ∧
      (entryFor fetch640 signSample).conversations.map Conv.from_ = ["human", "gpt"] :=
  C9_record_shape [signSample] fetch640 [entryFor fetch640 signSample]
    ["verify_affordance.png"]
    (by
      intro s hs
      simp only [List.mem_singleton] at hs
      subst hs
      exact Or.inr (Or.inr ⟨rfl, 343, 202, rfl⟩))
    (by with_unfolding_all rfl)
    (entryFor fetch640 signSample) (by simp)
